import Mathlib

/-!
Verification of the anki-compendium backend core: the Job lifecycle
(`app/services/job_service.py`), the worker run (`app/workers/tasks.py`),
the upload validation path (`app/core/validators.py`,
`app/api/v1/endpoints/upload.py`) and the RAG pipeline helpers
(`app/rag/loaders.py`, `app/rag/chunking.py`,
`app/rag/chains/question_generation.py`, `app/rag/anki/card_generator.py`).

Python records are embedded as Lean structures; database ids and
timestamps are modelled as `Nat`, Python `int` as `Int`, nullable columns
as `Option`, raised exceptions as `Except` errors.
-/

namespace AnkiCompendium

/-- `JobStatus` enumeration from `app/models/job.py`. -/
inductive JobStatus where
  | pending
  | processing
  | completed
  | failed
  | cancelled
deriving DecidableEq, Repr

/-- The `Job` row from `app/models/job.py` (ids and timestamps as `Nat`,
nullable columns as `Option`). -/
structure JobRecord where
  id : Nat
  user_id : Nat
  status : JobStatus
  progress_percent : Int
  source_filename : String
  source_file_path : String
  page_start : Option Int
  page_end : Option Int
  card_density : String
  subject : Option String
  chapter : Option String
  custom_tags : Option (List String)
  result_deck_id : Option Nat
  error_message : Option String
  retry_count : Int
  max_retries : Int
  completed_at : Option Nat
deriving DecidableEq, Repr

/-- The `JobUpdate` schema from `app/schemas/job.py`: every field optional,
`none` meaning "not set" (the service layer never sets a field to null
through it, so `Option` models `exclude_unset` faithfully). -/
structure JobUpdate where
  status : Option JobStatus := none
  progress_percent : Option Int := none
  error_message : Option String := none
  result_deck_id : Option Nat := none
  completed_at : Option Nat := none
deriving Repr

/-- `JobService.update_job`: applies exactly the set fields of the update to
the job, unconditionally (`job_service.py` lines 115-140). -/
def update_job (job : JobRecord) (u : JobUpdate) : JobRecord :=
  { job with
    status := u.status.getD job.status,
    progress_percent := u.progress_percent.getD job.progress_percent,
    error_message := match u.error_message with
      | some m => some m
      | none => job.error_message,
    result_deck_id := match u.result_deck_id with
      | some d => some d
      | none => job.result_deck_id,
    completed_at := match u.completed_at with
      | some t => some t
      | none => job.completed_at }

/-- `JobService.start_job` (`job_service.py` lines 142-157). -/
def start_job (job : JobRecord) : JobRecord :=
  update_job job { status := some .processing }

/-- `JobService.complete_job` (`job_service.py` lines 159-182); `now` models
`datetime.utcnow()`. -/
def complete_job (job : JobRecord) (result_deck_id : Nat) (now : Nat) : JobRecord :=
  update_job job
    { status := some .completed, progress_percent := some 100,
      result_deck_id := some result_deck_id, completed_at := some now }

/-- `JobService.fail_job` (`job_service.py` lines 184-206). -/
def fail_job (job : JobRecord) (error_message : String) (now : Nat) : JobRecord :=
  update_job job
    { status := some .failed, error_message := some error_message,
      completed_at := some now }

/-- `JobService.cancel_job` (`job_service.py` lines 208-226). -/
def cancel_job (job : JobRecord) (now : Nat) : JobRecord :=
  update_job job { status := some .cancelled, completed_at := some now }

/-- The `HTTPException` outcomes `JobService.retry_job` can raise. -/
inductive RetryError where
  | jobMissing
  | notOwner
  | notFailedStatus
  | retryLimitReached
deriving DecidableEq, Repr

/-- `JobService.retry_job` (`job_service.py` lines 228-292): 404 if the job
is missing, 403 if not owned by the caller, 400 if not FAILED or the retry
budget is exhausted; otherwise resets to PENDING, clears error and
completion, zeroes progress and increments `retry_count`.  All checks
precede the mutation, so a rejected call leaves the record untouched. -/
def retry_job (job : Option JobRecord) (user_id : Nat) : Except RetryError JobRecord :=
  match job with
  | none => .error .jobMissing
  | some job =>
    if job.user_id ≠ user_id then .error .notOwner
    else if job.status ≠ .failed then .error .notFailedStatus
    else if job.retry_count ≥ job.max_retries then .error .retryLimitReached
    else .ok { job with
      status := .pending, progress_percent := 0, error_message := none,
      retry_count := job.retry_count + 1, completed_at := none }

/-- The stored row after a `retry_job` call: the rejected call raises before
any assignment, so the stored job is unchanged; a successful call stores the
reset job. -/
def retry_job_store (job : Option JobRecord) (user_id : Nat) : Option JobRecord :=
  match retry_job job user_id with
  | .ok j => some j
  | .error _ => job

/-- Boolean success test for an `Except` result. -/
def isOkE {ε α : Type} : Except ε α → Bool
  | .ok _ => true
  | .error _ => false

end AnkiCompendium

namespace AnkiCompendium

/-- The reset record produced by a successful `retry_job`: status Pending,
progress 0, error and completion cleared, `retry_count` incremented
(`job_service.py` lines 280-285). -/
def retried (job : JobRecord) : JobRecord :=
  { job with
    status := .pending, progress_percent := 0, error_message := none,
    retry_count := job.retry_count + 1, completed_at := none }

/-- `retry_job` called by the job's owner, with the ownership test
discharged. -/
theorem retry_job_owner_eq (job : JobRecord) :
    retry_job (some job) job.user_id =
      if job.status ≠ .failed then .error .notFailedStatus
      else if job.retry_count ≥ job.max_retries then .error .retryLimitReached
      else .ok (retried job) := by
  simp [retry_job, retried]

/-- A concrete cancelled job, used to exhibit a transition outside the
allowed graph being performed rather than rejected. -/
def cancelledJob : JobRecord :=
  { id := 1, user_id := 2, status := .cancelled, progress_percent := 40,
    source_filename := "doc.pdf", source_file_path := "pdfs/doc.pdf",
    page_start := none, page_end := none, card_density := "medium",
    subject := none, chapter := none, custom_tags := none,
    result_deck_id := none, error_message := none, retry_count := 0,
    max_retries := 3, completed_at := some 50 }

/-- A concrete failed job with retry budget left, owned by user 2. -/
def failedJob : JobRecord :=
  { id := 3, user_id := 2, status := .failed, progress_percent := 20,
    source_filename := "doc.pdf", source_file_path := "pdfs/doc.pdf",
    page_start := none, page_end := none, card_density := "medium",
    subject := none, chapter := none, custom_tags := none,
    result_deck_id := none, error_message := some "boom", retry_count := 1,
    max_retries := 3, completed_at := some 60 }

/-- C1 counterexample: `complete_job` invoked on a Cancelled job — a move
outside the allowed graph — is not rejected with an `InvalidTransition`
error; it changes the job to Completed. -/
theorem C1_counterexample :
    cancelledJob.status = JobStatus.cancelled ∧
    (complete_job cancelledJob 7 99).status = JobStatus.completed ∧
    complete_job cancelledJob 7 99 ≠ cancelledJob := by
  refine ⟨rfl, rfl, ?_⟩
  decide

/-- C1 amended: `start_job`, `complete_job`, `fail_job` and `cancel_job`
check no precondition at all — each sets its target status whatever the
current status, so moves outside the graph are performed, not rejected (no
`InvalidTransition` error exists); only `retry_job` is guarded, succeeding
exactly for the owner on a Failed job with `retry_count < max_retries`. -/
theorem C1_lifecycle_unguarded (job : JobRecord) (d now uid : Nat) (m : String) :
    (start_job job).status = JobStatus.processing ∧
    (complete_job job d now).status = JobStatus.completed ∧
    (fail_job job m now).status = JobStatus.failed ∧
    (cancel_job job now).status = JobStatus.cancelled ∧
    (isOkE (retry_job (some job) uid) = true ↔
      uid = job.user_id ∧ job.status = JobStatus.failed ∧
        job.retry_count < job.max_retries) := by
  refine ⟨rfl, rfl, rfl, rfl, ?_⟩
  by_cases h1 : job.user_id = uid
  · subst h1
    rw [retry_job_owner_eq]
    by_cases h2 : job.status = JobStatus.failed
    · by_cases h3 : job.retry_count < job.max_retries
      · simp [h2, h3, not_le.mpr h3, isOkE]
      · simp [h2, h3, not_lt.mp h3, isOkE]
    · simp [h2, isOkE]
  · have : job.user_id ≠ uid := h1
    simp [retry_job, this, isOkE]
    intro h
    exact absurd h.symm h1

/-- C2: `retry_job`, called by the job's owner, succeeds iff the job is
Failed with `retry_count < max_retries`, and then stores exactly the reset
record (retry_count+1, error and completed_at cleared, progress 0, status
Pending); in every other case it raises and the stored record is entirely
unchanged. -/
theorem C2_retry_iff (job : JobRecord) :
    (retry_job (some job) job.user_id = .ok (retried job) ↔
       job.status = JobStatus.failed ∧ job.retry_count < job.max_retries) ∧
    ((∃ e, retry_job (some job) job.user_id = .error e) ↔
       ¬ (job.status = JobStatus.failed ∧ job.retry_count < job.max_retries)) ∧
    (job.status = JobStatus.failed ∧ job.retry_count < job.max_retries →
       retry_job_store (some job) job.user_id = some (retried job)) ∧
    (¬ (job.status = JobStatus.failed ∧ job.retry_count < job.max_retries) →
       retry_job_store (some job) job.user_id = some job) := by
  by_cases h2 : job.status = JobStatus.failed
  · by_cases h3 : job.retry_count < job.max_retries
    · refine ⟨?_, ?_, ?_, ?_⟩ <;>
        simp [retry_job_store, retry_job_owner_eq, h2, h3, not_le.mpr h3]
    · refine ⟨?_, ?_, ?_, ?_⟩ <;>
        simp [retry_job_store, retry_job_owner_eq, h2, h3, not_lt.mp h3]
  · refine ⟨?_, ?_, ?_, ?_⟩ <;>
      simp [retry_job_store, retry_job_owner_eq, h2]

/-- C2 witness: retrying the concrete failed job (status Failed,
retry_count 1 < max_retries 3) succeeds with the reset record; the
succeed-side implication of `C2_retry_iff` is applied at `failedJob`. -/
theorem C2_retry_iff_witness :
    retry_job_store (some failedJob) failedJob.user_id = some (retried failedJob) :=
  (C2_retry_iff failedJob).2.2.1 ⟨rfl, by decide⟩

/-- One run of `_process_pdf_async` (`app/workers/tasks.py` lines 149-371):
each boolean tells whether the corresponding externally-failable step
succeeds (PDF download, GEMINI_API_KEY check, RAG pipeline / generative
service, deck upload, deck-record creation); `errMsg` models the
`str(e)` + stack-trace string the exception handler passes to `fail_job`. -/
structure RunConfig where
  downloadOk : Bool
  apiKeyOk : Bool
  pipelineOk : Bool
  uploadOk : Bool
  deckOk : Bool
  errMsg : String
  deckId : Nat
  now : Nat
deriving Repr

/-- `_process_pdf_async`: returns the final job row and the sequence of
`progress_percent` values committed to the row, in commit order.  Commits in
the source: status=PROCESSING with progress 0, then progress 10 (after
download), 20 (before the pipeline), 80 (after the pipeline), 90 (after the
deck upload), and the terminal commit (COMPLETED with progress 100, or the
`fail_job` update from the exception handler, which does not change
progress). -/
def process_pdf_async (job : JobRecord) (cfg : RunConfig) : JobRecord × List Int :=
  let j1 := { job with status := JobStatus.processing, progress_percent := 0 }
  if !cfg.downloadOk then
    let jf := fail_job j1 cfg.errMsg cfg.now
    (jf, [j1.progress_percent, jf.progress_percent])
  else
    let j2 := { j1 with progress_percent := 10 }
    if !cfg.apiKeyOk then
      let jf := fail_job j2 cfg.errMsg cfg.now
      (jf, [j1.progress_percent, j2.progress_percent, jf.progress_percent])
    else
      let j3 := { j2 with progress_percent := 20 }
      if !cfg.pipelineOk then
        let jf := fail_job j3 cfg.errMsg cfg.now
        (jf, [j1.progress_percent, j2.progress_percent, j3.progress_percent,
              jf.progress_percent])
      else
        let j4 := { j3 with progress_percent := 80 }
        if !cfg.uploadOk then
          let jf := fail_job j4 cfg.errMsg cfg.now
          (jf, [j1.progress_percent, j2.progress_percent, j3.progress_percent,
                j4.progress_percent, jf.progress_percent])
        else
          let j5 := { j4 with progress_percent := 90 }
          if !cfg.deckOk then
            let jf := fail_job j5 cfg.errMsg cfg.now
            (jf, [j1.progress_percent, j2.progress_percent, j3.progress_percent,
                  j4.progress_percent, j5.progress_percent, jf.progress_percent])
          else
            let j6 := { j5 with
              status := JobStatus.completed, progress_percent := 100,
              result_deck_id := some cfg.deckId, completed_at := some cfg.now }
            (j6, [j1.progress_percent, j2.progress_percent, j3.progress_percent,
                  j4.progress_percent, j5.progress_percent, j6.progress_percent])

/-- A concrete pending job used to instantiate run-level theorems. -/
def pendingJob : JobRecord :=
  { id := 4, user_id := 2, status := .pending, progress_percent := 0,
    source_filename := "doc.pdf", source_file_path := "pdfs/doc.pdf",
    page_start := some 1, page_end := some 3, card_density := "medium",
    subject := some "bio", chapter := none, custom_tags := some ["x"],
    result_deck_id := none, error_message := none, retry_count := 1,
    max_retries := 3, completed_at := none }

/-- C3: when the generative-service pipeline raises mid-run, the run's
exception handler leaves the job Failed with a non-null error message and
`completed_at` set, with `retry_count` and every identity/parameter field
unchanged; moreover `fail_job` itself only touches status, error_message
and completed_at — in particular it never changes `retry_count` (only
`retry_job` does) or `progress_percent`. -/
theorem C3_pipeline_failure (job : JobRecord) (cfg : RunConfig)
    (h1 : cfg.downloadOk = true) (h2 : cfg.apiKeyOk = true)
    (h3 : cfg.pipelineOk = false) :
    ((process_pdf_async job cfg).1.status = JobStatus.failed ∧
     (process_pdf_async job cfg).1.error_message = some cfg.errMsg ∧
     (process_pdf_async job cfg).1.completed_at = some cfg.now ∧
     (process_pdf_async job cfg).1.retry_count = job.retry_count ∧
     (process_pdf_async job cfg).1.max_retries = job.max_retries ∧
     (process_pdf_async job cfg).1.id = job.id ∧
     (process_pdf_async job cfg).1.user_id = job.user_id ∧
     (process_pdf_async job cfg).1.source_filename = job.source_filename ∧
     (process_pdf_async job cfg).1.source_file_path = job.source_file_path ∧
     (process_pdf_async job cfg).1.page_start = job.page_start ∧
     (process_pdf_async job cfg).1.page_end = job.page_end ∧
     (process_pdf_async job cfg).1.card_density = job.card_density ∧
     (process_pdf_async job cfg).1.result_deck_id = job.result_deck_id) ∧
    (∀ (j : JobRecord) (m : String) (t : Nat),
      (fail_job j m t).retry_count = j.retry_count ∧
      (fail_job j m t).progress_percent = j.progress_percent ∧
      (fail_job j m t).result_deck_id = j.result_deck_id ∧
      (fail_job j m t).status = JobStatus.failed ∧
      (fail_job j m t).error_message = some m ∧
      (fail_job j m t).completed_at = some t) := by
  constructor
  · simp [process_pdf_async, h1, h2, h3, fail_job, update_job]
  · intro j m t
    simp [fail_job, update_job]

/-- A concrete run configuration whose pipeline stage raises. -/
def pipelineFailCfg : RunConfig :=
  ⟨true, true, false, true, true, "LLM boom", 9, 77⟩

/-- C3 witness: a pipeline failure on the concrete pending job leaves it
Failed with the raised message recorded and `retry_count` untouched. -/
theorem C3_pipeline_failure_witness :
    (process_pdf_async pendingJob pipelineFailCfg).1.status = JobStatus.failed ∧
    (process_pdf_async pendingJob pipelineFailCfg).1.error_message = some "LLM boom" ∧
    (process_pdf_async pendingJob pipelineFailCfg).1.retry_count = pendingJob.retry_count :=
  ⟨(C3_pipeline_failure pendingJob pipelineFailCfg rfl rfl rfl).1.1,
   (C3_pipeline_failure pendingJob pipelineFailCfg rfl rfl rfl).1.2.1,
   (C3_pipeline_failure pendingJob pipelineFailCfg rfl rfl rfl).1.2.2.2.1⟩

/-- C6: within a single Processing run, the sequence of values committed to
`progress_percent` is non-decreasing from the initial commit to the
terminal one, on every success/failure path of the run. -/
theorem C6_progress_monotone (job : JobRecord) (cfg : RunConfig) :
    List.Chain' (· ≤ ·) (process_pdf_async job cfg).2 := by
  obtain ⟨dl, ak, pl, ul, dk, msg, deckId, now⟩ := cfg
  cases dl <;> cases ak <;> cases pl <;> cases ul <;> cases dk <;>
    simp [process_pdf_async, fail_job, update_job]

/-- A parsed page as produced by the external PyMuPDF loader: its text, the
`page` entry of its metadata (`p.metadata.get("page", 0)` reads an absent
entry as 0), and its source. -/
structure PageDoc where
  text : String
  pageMeta : Option Int
  source : String
deriving DecidableEq, Repr

/-- The `FileNotFoundError` raised by `load_pdf`. -/
inductive LoadError where
  | fileMissing (path : String)
deriving DecidableEq, Repr

/-- `load_pdf` (`app/rag/loaders.py` lines 9-36).  The filesystem and the
external parse are inputs: `fileExists` models `Path(pdf_path).exists()`
and `pages` the list `PyMuPDFLoader(pdf_path).load()` returns.  A missing
file raises `FileNotFoundError`; when a `page_range` is given, pages whose
metadata page index lies in the inclusive range are kept; the result is
returned as is, empty or not. -/
def load_pdf (fileExists : Bool) (pages : List PageDoc) (pdf_path : String)
    (page_range : Option (Int × Int)) : Except LoadError (List PageDoc) :=
  if !fileExists then .error (.fileMissing pdf_path)
  else
    match page_range with
    | none => .ok pages
    | some (start, stop) =>
      .ok (pages.filter (fun p =>
        decide (start ≤ p.pageMeta.getD 0) && decide (p.pageMeta.getD 0 ≤ stop)))

/-- The `HTTPException` reasons `validate_page_range` can raise
(`app/core/validators.py` lines 163-192). -/
inductive PageRangeError where
  | startTooSmall
  | endTooSmall
  | startAfterEnd
deriving DecidableEq, Repr

/-- `validate_page_range`: page_start ≥ 1, page_end ≥ 1, and
page_start ≤ page_end when both are given, checked in that order. -/
def validate_page_range (page_start page_end : Option Int) :
    Except PageRangeError Unit :=
  if (match page_start with | some s => decide (s < 1) | none => false) then
    .error .startTooSmall
  else if (match page_end with | some e => decide (e < 1) | none => false) then
    .error .endTooSmall
  else
    match page_start, page_end with
    | some s, some e => if e < s then .error .startAfterEnd else .ok ()
    | _, _ => .ok ()

/-- The spec's notion of an invalid page range: a bound below 1 or
start above end. -/
def pageRangeInvalid (ps pe : Option Int) : Prop :=
  (∃ s, ps = some s ∧ s < 1) ∨ (∃ e, pe = some e ∧ e < 1) ∨
  (∃ s e, ps = some s ∧ pe = some e ∧ e < s)

/-- `validate_page_range` raises exactly on the invalid ranges. -/
theorem validate_page_range_error_iff (ps pe : Option Int) :
    (∃ er, validate_page_range ps pe = .error er) ↔ pageRangeInvalid ps pe := by
  cases ps with
  | none =>
    cases pe with
    | none => simp [validate_page_range, pageRangeInvalid]
    | some e =>
      by_cases he : e < 1 <;> simp [validate_page_range, pageRangeInvalid, he]
  | some s =>
    cases pe with
    | none =>
      by_cases hs : s < 1 <;> simp [validate_page_range, pageRangeInvalid, hs]
    | some e =>
      by_cases hs : s < 1
      · simp [validate_page_range, pageRangeInvalid, hs]
      · by_cases he : e < 1
        · simp [validate_page_range, pageRangeInvalid, hs, he]
        · by_cases hlt : e < s <;>
            simp [validate_page_range, pageRangeInvalid, hs, he, hlt]

/-- The rejection reasons of the upload endpoint, in source order
(`app/api/v1/endpoints/upload.py` lines 82-173). -/
inductive UploadError where
  | invalidFileType
  | invalidFileName
  | fileTooLarge
  | emptyFile
  | pageRange (e : PageRangeError)
  | quotaReached
  | badTags
  | storageFailed
deriving DecidableEq, Repr

/-- The data a call to `upload_pdf` depends on: the request's file
properties, page range, tags and processing parameters, the caller's quota
counters, and whether the external tag parse and storage upload succeed. -/
structure UploadRequest where
  contentTypeIsPdf : Bool
  filenameIsPdf : Bool
  fileSize : Int
  maxSizeBytes : Int
  page_start : Option Int
  page_end : Option Int
  cardsGeneratedMonth : Int
  cardsLimitMonth : Int
  tagsOk : Bool
  tagsList : Option (List String)
  storageOk : Bool
  userId : Nat
  filename : String
  objectPath : String
  density : String
  subject : Option String
  chapter : Option String
deriving Repr

/-- `JobService.create_job` (`job_service.py` lines 26-56) applied to the
`JobCreate` the endpoint builds: a fresh Pending job at progress 0 with the
request's parameters and the model defaults retry_count 0, max_retries 3. -/
def create_job (req : UploadRequest) : JobRecord :=
  { id := 0, user_id := req.userId, status := .pending, progress_percent := 0,
    source_filename := req.filename, source_file_path := req.objectPath,
    page_start := req.page_start, page_end := req.page_end,
    card_density := req.density, subject := req.subject,
    chapter := req.chapter, custom_tags := req.tagsList,
    result_deck_id := none, error_message := none, retry_count := 0,
    max_retries := 3, completed_at := none }

/-- `upload_pdf`: the endpoint's checks in source order — file type, file
name, size bound, non-emptiness, page range, quota, tag parse, storage
upload — then job creation.  The second component lists the Job records
persisted by the call. -/
def upload_pdf (req : UploadRequest) : Except UploadError JobRecord × List JobRecord :=
  if !req.contentTypeIsPdf then (.error .invalidFileType, [])
  else if !req.filenameIsPdf then (.error .invalidFileName, [])
  else if req.maxSizeBytes < req.fileSize then (.error .fileTooLarge, [])
  else if req.fileSize = 0 then (.error .emptyFile, [])
  else
    match validate_page_range req.page_start req.page_end with
    | .error e => (.error (.pageRange e), [])
    | .ok _ =>
      if req.cardsLimitMonth ≤ req.cardsGeneratedMonth then
        (.error .quotaReached, [])
      else if !req.tagsOk then (.error .badTags, [])
      else if !req.storageOk then (.error .storageFailed, [])
      else
        let job := create_job req
        (.ok job, [job])

/-- C4 counterexample: a readable one-page document filtered with the page
range (5, 6) yields the empty list and `load_pdf` returns it as a success —
no `SourceError` (nor any error) is raised on an empty filtered result. -/
theorem C4_counterexample :
    load_pdf true [⟨"hello", some 0, "doc.pdf"⟩] "doc.pdf" (some (5, 6)) =
      Except.ok [] ∧
    ([⟨"hello", some 0, "doc.pdf"⟩] : List PageDoc) ≠ [] := by
  constructor
  · rfl
  · decide

/-- C4 amended: `load_pdf` keeps the pages in order, filtered to the
inclusive page range when one is present and untouched otherwise, and an
unreadable (missing) input raises `FileNotFoundError` — not `SourceError`;
an empty filtered result is returned as a successful empty list, not
rejected. -/
theorem C4_load_pdf_filters (pages : List PageDoc) (path : String)
    (start stop : Int) :
    load_pdf false pages path (some (start, stop)) =
      .error (.fileMissing path) ∧
    load_pdf true pages path none = .ok pages ∧
    ∃ out, load_pdf true pages path (some (start, stop)) = .ok out ∧
      out.Sublist pages ∧
      ∀ p ∈ out, start ≤ p.pageMeta.getD 0 ∧ p.pageMeta.getD 0 ≤ stop := by
  refine ⟨rfl, rfl, _, rfl, List.filter_sublist _, ?_⟩
  intro p hp
  have h := List.of_mem_filter hp
  simp only [Bool.and_eq_true, decide_eq_true_eq] at h
  exact h

/-- C4 witness: the amended statement at a concrete two-page document with
range (1, 2). -/
theorem C4_load_pdf_filters_witness :
    load_pdf false [⟨"a", some 1, "d.pdf"⟩, ⟨"b", some 5, "d.pdf"⟩] "d.pdf"
        (some (1, 2)) = .error (.fileMissing "d.pdf") ∧
    load_pdf true [⟨"a", some 1, "d.pdf"⟩, ⟨"b", some 5, "d.pdf"⟩] "d.pdf"
        none = .ok [⟨"a", some 1, "d.pdf"⟩, ⟨"b", some 5, "d.pdf"⟩] ∧
    ∃ out, load_pdf true [⟨"a", some 1, "d.pdf"⟩, ⟨"b", some 5, "d.pdf"⟩]
        "d.pdf" (some (1, 2)) = .ok out ∧
      out.Sublist [⟨"a", some 1, "d.pdf"⟩, ⟨"b", some 5, "d.pdf"⟩] ∧
      ∀ p ∈ out, 1 ≤ p.pageMeta.getD 0 ∧ p.pageMeta.getD 0 ≤ 2 :=
  C4_load_pdf_filters [⟨"a", some 1, "d.pdf"⟩, ⟨"b", some 5, "d.pdf"⟩]
    "d.pdf" 1 2

/-- C5: a submission whose page range is invalid (a bound below 1, or
start above end) is rejected by the page-range validation — given the file
checks that precede it pass — and no Job record is persisted: the
validation runs before `create_job`. -/
theorem C5_invalid_range_rejected (req : UploadRequest)
    (hct : req.contentTypeIsPdf = true) (hfn : req.filenameIsPdf = true)
    (hsz : req.fileSize ≤ req.maxSizeBytes) (hnz : req.fileSize ≠ 0)
    (hr : pageRangeInvalid req.page_start req.page_end) :
    (∃ e, (upload_pdf req).1 = .error (.pageRange e)) ∧
    (upload_pdf req).2 = [] := by
  obtain ⟨er, her⟩ := (validate_page_range_error_iff _ _).mpr hr
  have hlt : ¬ req.maxSizeBytes < req.fileSize := not_lt.mpr hsz
  refine ⟨⟨er, ?_⟩, ?_⟩ <;> simp [upload_pdf, hct, hfn, hlt, hnz, her]

/-- A concrete submission with page_start = 10 and page_end = 5, the
spec's rejection scenario. -/
def badRangeReq : UploadRequest :=
  { contentTypeIsPdf := true, filenameIsPdf := true, fileSize := 1024,
    maxSizeBytes := 104857600, page_start := some 10, page_end := some 5,
    cardsGeneratedMonth := 0, cardsLimitMonth := 30, tagsOk := true,
    tagsList := none, storageOk := true, userId := 2,
    filename := "doc.pdf", objectPath := "pdfs/doc.pdf",
    density := "medium", subject := none, chapter := none }

/-- C5 witness: submitting with page_start = 10, page_end = 5 is rejected
with a page-range validation error and creates no Job. -/
theorem C5_invalid_range_rejected_witness :
    (∃ e, (upload_pdf badRangeReq).1 = .error (.pageRange e)) ∧
    (upload_pdf badRangeReq).2 = [] :=
  C5_invalid_range_rejected badRangeReq rfl rfl (by decide) (by decide)
    (Or.inr (Or.inr ⟨10, 5, rfl, rfl, by decide⟩))

/-- The metadata dictionary of a langchain document, restricted to the keys
the chunking stage reads or writes (`app/rag/chunking.py` lines 52-54). -/
structure DocMeta where
  page : Option Int
  source : String
  chunk_index : Option Nat
  chunk_size : Option Nat
deriving DecidableEq, Repr

/-- A langchain `Document`: page text (as a character list, so lengths and
slicing are explicit) plus its metadata. -/
structure Document where
  page_content : List Char
  metadata : DocMeta
deriving DecidableEq, Repr

/-- Modelled from the spec: the splitting routine is the external langchain
`RecursiveCharacterTextSplitter` (a third-party dependency, not in this
repository).  Per the spec it cuts page text into overlapping segments of
at most `chunk_size` characters, deterministic in (chunk size, overlap);
this model emits the fixed-size overlapping segmentation, each new segment
starting `chunk_size - overlap` (at least 1) characters after the previous
one. -/
def split_text (chunk_size overlap : Nat) (s : List Char) : List (List Char) :=
  if _h : s.length ≤ chunk_size then [s]
  else
    s.take chunk_size ::
      split_text chunk_size overlap (s.drop (max 1 (chunk_size - overlap)))
termination_by s.length
decreasing_by
  simp only [List.length_drop]
  omega

/-- `splitter.split_documents`: split every document's text, each chunk
inheriting its source document's metadata. -/
def split_documents (chunk_size overlap : Nat) (docs : List Document) :
    List Document :=
  (docs.map (fun d =>
    (split_text chunk_size overlap d.page_content).map
      (fun t => { d with page_content := t }))).flatten

/-- The `for idx, chunk in enumerate(chunks)` loop of `create_chunks`
(`chunking.py` lines 52-54): stamps `chunk_index` and `chunk_size`
(character length) into each chunk's metadata. -/
def tag_chunks : List Document → Nat → List Document
  | [], _ => []
  | c :: rest, idx =>
    { c with metadata := { c.metadata with
        chunk_index := some idx,
        chunk_size := some c.page_content.length } } :: tag_chunks rest (idx + 1)

/-- `create_chunks` (`chunking.py` lines 8-56): defaults chunk_size 500 and
overlap 100, splits the documents, and stamps index and length metadata. -/
def create_chunks (documents : List Document)
    (chunk_size overlap : Option Nat) : List Document :=
  tag_chunks (split_documents (chunk_size.getD 500) (overlap.getD 100) documents) 0

/-- Each element of `tag_chunks l n` carries its position (offset by `n`)
as `chunk_index` and its own character length as `chunk_size`. -/
theorem tag_chunks_get (l : List Document) (n i : Nat)
    (h : i < (tag_chunks l n).length) :
    ((tag_chunks l n).get ⟨i, h⟩).metadata.chunk_index = some (n + i) ∧
    ((tag_chunks l n).get ⟨i, h⟩).metadata.chunk_size =
      some ((tag_chunks l n).get ⟨i, h⟩).page_content.length := by
  induction l generalizing n i with
  | nil => simp [tag_chunks] at h
  | cons c rest ih =>
    cases i with
    | zero => simp [tag_chunks, List.get]
    | succ j =>
      have hj : j < (tag_chunks rest (n + 1)).length := by
        simpa [tag_chunks] using h
      have := ih (n + 1) j hj
      have harith : n + 1 + j = n + (j + 1) := by omega
      simpa [tag_chunks, List.get, harith] using this

/-- C8: chunking is deterministic — identical documents and identical
(chunk size, overlap) give identical chunk lists, hence the same count and
boundaries — and every produced chunk records its order index as
`chunk_index` and its character length as `chunk_size` in its metadata. -/
theorem C8_chunking_deterministic (docs docs' : List Document)
    (cs cs' ov ov' : Option Nat)
    (hd : docs = docs') (hc : cs = cs') (ho : ov = ov') :
    create_chunks docs cs ov = create_chunks docs' cs' ov' ∧
    (create_chunks docs cs ov).length = (create_chunks docs' cs' ov').length ∧
    ∀ i (h : i < (create_chunks docs cs ov).length),
      ((create_chunks docs cs ov).get ⟨i, h⟩).metadata.chunk_index = some i ∧
      ((create_chunks docs cs ov).get ⟨i, h⟩).metadata.chunk_size =
        some ((create_chunks docs cs ov).get ⟨i, h⟩).page_content.length := by
  subst hd
  subst hc
  subst ho
  refine ⟨rfl, rfl, ?_⟩
  intro i h
  have := tag_chunks_get
    (split_documents (cs.getD 500) (ov.getD 100) docs) 0 i (by simpa [create_chunks] using h)
  simpa [create_chunks] using this

/-- A concrete one-page document for the chunking witness. -/
def pageDocA : Document :=
  { page_content := "alpha beta".data,
    metadata := { page := some 0, source := "doc.pdf",
                  chunk_index := none, chunk_size := none } }

/-- C8 witness: the determinism-and-metadata statement applied at the
concrete document with chunk size 4 and overlap 1. -/
theorem C8_chunking_deterministic_witness :
    create_chunks [pageDocA] (some 4) (some 1) =
      create_chunks [pageDocA] (some 4) (some 1) ∧
    (create_chunks [pageDocA] (some 4) (some 1)).length =
      (create_chunks [pageDocA] (some 4) (some 1)).length ∧
    ∀ i (h : i < (create_chunks [pageDocA] (some 4) (some 1)).length),
      ((create_chunks [pageDocA] (some 4) (some 1)).get ⟨i, h⟩).metadata.chunk_index =
        some i ∧
      ((create_chunks [pageDocA] (some 4) (some 1)).get ⟨i, h⟩).metadata.chunk_size =
        some (((create_chunks [pageDocA] (some 4) (some 1)).get
          ⟨i, h⟩).page_content.length) :=
  C8_chunking_deterministic [pageDocA] [pageDocA] (some 4) (some 4)
    (some 1) (some 1) rfl rfl rfl

/-- The density-to-question-count mapping of
`app/rag/chains/question_generation.py` lines 76-78:
`density_map = {"low": 2, "medium": 5, "high": 10}`;
`num_questions = density_map.get(density, 5)`. -/
def density_map : List (String × Nat) :=
  [("low", 2), ("medium", 5), ("high", 10)]

/-- `num_questions` as computed by `generate_questions` for a density. -/
def num_questions_for (density : String) : Nat :=
  (density_map.lookup density).getD 5

/-- `ZeroDivisionError` model for `estimate_chunk_count`. -/
inductive PyArithError where
  | zeroDivision
deriving DecidableEq, Repr

/-- `estimate_chunk_count` from `app/rag/chunking.py` lines 59-77, with
Python's floor division (`Int.fdiv`) and its `ZeroDivisionError` made
explicit: the divisor `chunk_size - overlap` is unguarded. -/
def estimate_chunk_count (text_length : Int) (chunk_size : Int := 500)
    (overlap : Int := 100) : Except PyArithError Int :=
  if text_length ≤ chunk_size then .ok 1
  else
    let effective_chunk_size := chunk_size - overlap
    if effective_chunk_size = 0 then .error .zeroDivision
    else .ok (max 1 ((text_length - overlap).fdiv effective_chunk_size))

end AnkiCompendium

namespace AnkiCompendium

/-- C7: per chunk, `generate_questions` requests N questions with N given
solely by the density via the fixed mapping low=2, medium=5, high=10, and
N=5 for any other density string. -/
theorem C7_density_mapping (d : String) :
    num_questions_for "low" = 2 ∧
    num_questions_for "medium" = 5 ∧
    num_questions_for "high" = 10 ∧
    (d ≠ "low" → d ≠ "medium" → d ≠ "high" → num_questions_for d = 5) := by
  refine ⟨rfl, rfl, rfl, ?_⟩
  intro h1 h2 h3
  have e1 : (d == "low") = false := beq_eq_false_iff_ne.mpr h1
  have e2 : (d == "medium") = false := beq_eq_false_iff_ne.mpr h2
  have e3 : (d == "high") = false := beq_eq_false_iff_ne.mpr h3
  simp [num_questions_for, density_map, List.lookup, e1, e2, e3]

/-- C7 witness: the default branch at the concrete density "extreme". -/
theorem C7_density_mapping_witness :
    num_questions_for "low" = 2 ∧
    num_questions_for "medium" = 5 ∧
    num_questions_for "high" = 10 ∧
    num_questions_for "extreme" = 5 := by
  obtain ⟨h1, h2, h3, h4⟩ := C7_density_mapping "extreme"
  exact ⟨h1, h2, h3, h4 (by decide) (by decide) (by decide)⟩

/-- C9 counterexample: with `chunk_size = 400 < overlap = 500` and
`text_length = 1000 > chunk_size`, Python's floor division by the negative
`effective_chunk_size` succeeds and the call returns 1, so
`chunk_size > overlap` is not a necessary precondition for totality. -/
theorem C9_counterexample :
    estimate_chunk_count 1000 400 500 = Except.ok 1 ∧ ¬ (400 : Int) > 500 := by
  constructor
  · rfl
  · decide

/-- C9 amended: for text_length ≥ 0, `estimate_chunk_count` terminates
without error and returns an integer ≥ 1 when chunk_size > overlap; the
unguarded division makes `chunk_size ≠ overlap` (not `chunk_size > overlap`)
the necessary and sufficient totality precondition when
text_length > chunk_size, and the call raises `ZeroDivisionError` exactly
when text_length > chunk_size and chunk_size = overlap. -/
theorem C9_estimate_chunk_count_total (text_length chunk_size overlap : Int)
    (_hnn : 0 ≤ text_length) :
    (overlap < chunk_size →
      ∃ n, estimate_chunk_count text_length chunk_size overlap = .ok n ∧ 1 ≤ n) ∧
    (chunk_size ≠ overlap →
      ∃ n, estimate_chunk_count text_length chunk_size overlap = .ok n) ∧
    (chunk_size < text_length → chunk_size = overlap →
      estimate_chunk_count text_length chunk_size overlap = .error .zeroDivision) := by
  refine ⟨?_, ?_, ?_⟩
  · intro hlt
    by_cases hle : text_length ≤ chunk_size
    · exact ⟨1, by simp [estimate_chunk_count, hle], le_refl 1⟩
    · refine ⟨max 1 ((text_length - overlap).fdiv (chunk_size - overlap)), ?_, ?_⟩
      · have hne : chunk_size - overlap ≠ 0 := by omega
        simp [estimate_chunk_count, hle, hne]
      · exact le_max_left 1 _
  · intro hne
    by_cases hle : text_length ≤ chunk_size
    · exact ⟨1, by simp [estimate_chunk_count, hle]⟩
    · refine ⟨max 1 ((text_length - overlap).fdiv (chunk_size - overlap)), ?_⟩
      have hz : chunk_size - overlap ≠ 0 := by omega
      simp [estimate_chunk_count, hle, hz]
  · intro hgt heq
    have hle : ¬ text_length ≤ chunk_size := by omega
    have hz : chunk_size - overlap = 0 := by omega
    simp [estimate_chunk_count, hle, hz]

/-- C9 witness: the guarded case at text_length 1000, chunk_size 500,
overlap 100 yields a defined count of at least 1. -/
theorem C9_estimate_chunk_count_total_witness :
    (∃ n, estimate_chunk_count 1000 500 100 = .ok n ∧ 1 ≤ n) ∧
    (∃ n, estimate_chunk_count 1000 500 100 = .ok n) ∧
    estimate_chunk_count 1000 500 500 = .error .zeroDivision := by
  obtain ⟨h1, h2, _⟩ := C9_estimate_chunk_count_total 1000 500 100 (by decide)
  obtain ⟨_, _, h3⟩ := C9_estimate_chunk_count_total 1000 500 500 (by decide)
  exact ⟨h1 (by decide), h2 (by decide), h3 (by decide) (by decide)⟩

end AnkiCompendium

namespace AnkiCompendium

/-- A Q&A pair dictionary handed to the deck builder, restricted to the
keys `add_cards_from_qa_pairs` reads; `none` models an absent key. -/
structure QAPair where
  question : Option String
  answer : Option String
  context : Option String
  explanation : Option String
  difficulty : Option String
  difficulty_rating : Option String
  source : Option String
deriving DecidableEq, Repr

/-- A genanki note as `AnkiCardGenerator.add_card` builds it
(`app/rag/anki/card_generator.py` lines 164-191): the six template fields
plus the tag list. -/
structure AnkiNote where
  question : String
  answer : String
  context : String
  explanation : String
  difficulty : String
  source : String
  tags : List String
deriving DecidableEq, Repr

/-- `AnkiCardGenerator.add_card`: fields as passed, tags defaulting to []. -/
def add_card (question answer context explanation difficulty source : String)
    (tags : Option (List String)) : AnkiNote :=
  { question := question, answer := answer, context := context,
    explanation := explanation, difficulty := difficulty, source := source,
    tags := tags.getD [] }

/-- `AnkiCardGenerator.add_cards_from_qa_pairs` (`card_generator.py` lines
193-221): one card per pair in order; question, answer, context and
explanation read from the pair with "" for an absent key; difficulty reads
the pair's `difficulty` key, falling back to its `difficulty_rating` key,
then ""; `source` and `tags` come from the call's own arguments, identical
for every card. -/
def add_cards_from_qa_pairs (qa_pairs : List QAPair)
    (tags : Option (List String)) (source : String) : List AnkiNote :=
  qa_pairs.map (fun qa =>
    add_card (qa.question.getD "") (qa.answer.getD "") (qa.context.getD "")
      (qa.explanation.getD "")
      (qa.difficulty.getD (qa.difficulty_rating.getD ""))
      source (some (tags.getD [])))

/-- `create_anki_deck` (`card_generator.py` lines 243-267): builds a
generator, adds the cards (with `source` defaulting to "") and exports,
returning the notes written and the output path. -/
def create_anki_deck (qa_pairs : List QAPair) (deck_name : String)
    (tags : Option (List String)) (output_path : String)
    (source : String := "") : List AnkiNote × String :=
  let _ := deck_name
  (add_cards_from_qa_pairs qa_pairs tags source, output_path)

/-- A pair whose difficulty comes only from `difficulty_rating` and which
carries its own `source` key. -/
def qaWithRating : QAPair :=
  { question := some "q", answer := some "a", context := none,
    explanation := none, difficulty := none,
    difficulty_rating := some "hard", source := some "SRC" }

/-- C10 counterexample: for a pair with no `difficulty` key but
`difficulty_rating = "hard"` and `source = "SRC"`, the produced card's
difficulty is "hard" (not the "" the claim requires for a missing field)
and its source is "" from the call's default argument (not the pair's
"SRC"). -/
theorem C10_counterexample :
    (create_anki_deck [qaWithRating] "Deck" (some ["t"]) "out.apkg").1 =
      [{ question := "q", answer := "a", context := "", explanation := "",
         difficulty := "hard", source := "", tags := ["t"] }] ∧
    qaWithRating.difficulty = none ∧
    qaWithRating.source = some "SRC" :=
  ⟨rfl, rfl, rfl⟩

/-- C10 amended: `create_anki_deck` yields exactly one card per QA pair in
input order; question, answer, context and explanation are taken from the
pair with "" substituted for a missing key; difficulty is the pair's
`difficulty` key, falling back to its `difficulty_rating` key, then "";
the source field is the call's `source` argument (the pair's own `source`
key is ignored; "" under the default); and the same tag list is applied to
every card. -/
theorem C10_deck_from_pairs (qa_pairs : List QAPair) (deck_name : String)
    (tags : Option (List String)) (output_path source : String) :
    (create_anki_deck qa_pairs deck_name tags output_path source).1 =
      qa_pairs.map (fun qa =>
        { question := qa.question.getD "", answer := qa.answer.getD "",
          context := qa.context.getD "", explanation := qa.explanation.getD "",
          difficulty := qa.difficulty.getD (qa.difficulty_rating.getD ""),
          source := source, tags := tags.getD [] }) ∧
    (create_anki_deck qa_pairs deck_name tags output_path source).1.length =
      qa_pairs.length := by
  constructor
  · rfl
  · simp [create_anki_deck, add_cards_from_qa_pairs]

/-- C10 witness: the amended statement at the concrete pair list. -/
theorem C10_deck_from_pairs_witness :
    (create_anki_deck [qaWithRating] "Deck" (some ["t"]) "out.apkg" "s7").1 =
      [qaWithRating].map (fun qa =>
        { question := qa.question.getD "", answer := qa.answer.getD "",
          context := qa.context.getD "", explanation := qa.explanation.getD "",
          difficulty := qa.difficulty.getD (qa.difficulty_rating.getD ""),
          source := "s7", tags := ["t"] }) ∧
    (create_anki_deck [qaWithRating] "Deck" (some ["t"]) "out.apkg" "s7").1.length =
      [qaWithRating].length :=
  C10_deck_from_pairs [qaWithRating] "Deck" (some ["t"]) "out.apkg" "s7"

/-- C1 witness: the amended statement instantiated at the concrete failed
job — only the guarded `retry_job` tests its precondition. -/
theorem C1_lifecycle_unguarded_witness :
    (start_job failedJob).status = JobStatus.processing ∧
    (complete_job failedJob 7 99).status = JobStatus.completed ∧
    (fail_job failedJob "m" 99).status = JobStatus.failed ∧
    (cancel_job failedJob 99).status = JobStatus.cancelled ∧
    (isOkE (retry_job (some failedJob) 2) = true ↔
      2 = failedJob.user_id ∧ failedJob.status = JobStatus.failed ∧
        failedJob.retry_count < failedJob.max_retries) :=
  C1_lifecycle_unguarded failedJob 7 99 2 "m"

end AnkiCompendium
